import Mathlib

/-!
Shallow embedding of the `smk` rendering core (`src/smk/Sprite.cpp`,
`src/smk/Shader.cpp`) and proofs about it.

C++ `float`/`double` arithmetic is modelled exactly over `ℚ`; GPU driver
calls (`glCreateShader`, `glGetUniformLocation`, ...) are modelled as
oracle functions packaged in driver structures, and every driver
interaction an operation performs is recorded in its result so that
query counts and emitted log lines can be reasoned about.  Process-level
effects (`exit`, `throw`) are modelled by an explicit outcome type.
-/

namespace Smk

/-- Modelled from the spec: `smk::Rectangle` (its header is not part of the
sources given): fields `left`, `top`, `right`, `bottom` in pixel units,
`width() = right - left`, `height() = bottom - top`.  Field declaration
order is `left, top, right, bottom`, matching the aggregate initializer
`{0.f, 0.f, float(width), float(height)}` used by `Sprite::Sprite(const
Texture&)`, which produces `left = 0, top = 0, right = width,
bottom = height`. -/
structure Rectangle where
  left : ℚ
  top : ℚ
  right : ℚ
  bottom : ℚ
deriving Repr, DecidableEq

/-- `Rectangle::width() = right - left`. -/
def Rectangle.width (r : Rectangle) : ℚ := r.right - r.left

/-- `Rectangle::height() = bottom - top`. -/
def Rectangle.height (r : Rectangle) : ℚ := r.bottom - r.top

/-- `smk::Vertex`: an object-space position and a normalized texture
coordinate, both 2D. -/
structure Vertex where
  position : ℚ × ℚ
  texture_coordinate : ℚ × ℚ
deriving Repr, DecidableEq

/-- `smk::Texture` as consumed by `Sprite`: only its pixel dimensions
(`width()`, `height()`, C++ `int`) matter to the embedded code. -/
structure Texture where
  width : ℤ
  height : ℤ
deriving Repr, DecidableEq

/-- `smk::Framebuffer` as consumed by `Sprite::Sprite(const Framebuffer&)`:
it exposes its color attachment `color_texture` (field of
`Framebuffer.hpp`). -/
structure Framebuffer where
  color_texture : Texture
deriving Repr, DecidableEq

/-- `smk::Sprite`: a reference to a texture (via `Transformable::SetTexture`)
plus the vertex array built by the constructors /
`SetTextureRectangle` (via `SetVertexArray(VertexArray(std::vector<Vertex>(...)))`).
The vertex array is modelled as the ordered list of vertices. -/
structure Sprite where
  texture : Texture
  vertices : List Vertex
deriving Repr, DecidableEq

/-- `Sprite::SetTextureRectangle(const Rectangle&)` from `Sprite.cpp`:

```
float l = (rectangle.left + 0.5) / texture()->width();
float r = (rectangle.right - 0.5) / texture()->width();
float t = (rectangle.top + 0.5) / texture()->height();
float b = (rectangle.bottom - 0.5) / texture()->height();
float www = rectangle.width();
float hhh = rectangle.height();
SetVertexArray(VertexArray({ {{0,0},{l,t}}, {{0,hhh},{l,b}}, {{www,hhh},{r,b}},
                             {{0,0},{l,t}}, {{www,hhh},{r,b}}, {{www,0},{r,t}} }));
```
-/
def Sprite.SetTextureRectangle (s : Sprite) (rectangle : Rectangle) : Sprite :=
  let l : ℚ := (rectangle.left + 1/2) / (s.texture.width : ℚ)
  let r : ℚ := (rectangle.right - 1/2) / (s.texture.width : ℚ)
  let t : ℚ := (rectangle.top + 1/2) / (s.texture.height : ℚ)
  let b : ℚ := (rectangle.bottom - 1/2) / (s.texture.height : ℚ)
  let www : ℚ := rectangle.width
  let hhh : ℚ := rectangle.height
  { s with vertices := [
      ⟨(0, 0), (l, t)⟩,
      ⟨(0, hhh), (l, b)⟩,
      ⟨(www, hhh), (r, b)⟩,
      ⟨(0, 0), (l, t)⟩,
      ⟨(www, hhh), (r, b)⟩,
      ⟨(www, 0), (r, t)⟩] }

/-- `Sprite::Sprite(const Texture&)` from `Sprite.cpp`: stores the texture
and calls `SetTextureRectangle({0.f, 0.f, float(width), float(height)})`
(aggregate order `left, top, right, bottom`, see `Rectangle`). -/
def Sprite.fromTexture (texture : Texture) : Sprite :=
  Sprite.SetTextureRectangle { texture := texture, vertices := [] }
    { left := 0, top := 0, right := (texture.width : ℚ), bottom := (texture.height : ℚ) }

/-- `Sprite::Sprite(const Texture&, const Rectangle)` from `Sprite.cpp`. -/
def Sprite.fromTextureRect (texture : Texture) (rectangle : Rectangle) : Sprite :=
  Sprite.SetTextureRectangle { texture := texture, vertices := [] } rectangle

/-- `Sprite::Sprite(const Framebuffer&)` from `Sprite.cpp`:

```
float l = 0.f; float r = 1.f; float t = 0.f; float b = 1.f;
float www = framebuffer.color_texture.width();
float hhh = framebuffer.color_texture.height();
SetVertexArray(VertexArray({ {{0,0},{l,b}}, {{0,hhh},{l,t}}, {{www,hhh},{r,t}},
                             {{0,0},{l,b}}, {{www,hhh},{r,t}}, {{www,0},{r,b}} }));
```
-/
def Sprite.fromFramebuffer (framebuffer : Framebuffer) : Sprite :=
  let l : ℚ := 0
  let r : ℚ := 1
  let t : ℚ := 0
  let b : ℚ := 1
  let www : ℚ := (framebuffer.color_texture.width : ℚ)
  let hhh : ℚ := (framebuffer.color_texture.height : ℚ)
  { texture := framebuffer.color_texture, vertices := [
      ⟨(0, 0), (l, b)⟩,
      ⟨(0, hhh), (l, t)⟩,
      ⟨(www, hhh), (r, t)⟩,
      ⟨(0, 0), (l, b)⟩,
      ⟨(www, hhh), (r, t)⟩,
      ⟨(www, 0), (r, b)⟩] }

/-- Twice the signed area of the triangle `(p, q, u)`; zero exactly when
the triangle is degenerate (has zero drawing area). -/
def triangleDoubledArea (p q u : ℚ × ℚ) : ℚ :=
  (q.1 - p.1) * (u.2 - p.2) - (u.1 - p.1) * (q.2 - p.2)

/-! ## Shader.cpp embedding -/

/-- `GL_TRUE` (OpenGL boolean true, the value `GL_COMPILE_STATUS` /
`GL_LINK_STATUS` are compared against). -/
def GL_TRUE : ℤ := 1

/-- `GL_INVALID_OPERATION` (`0x0502`), which `Uniform`/`Attribute` compare
the returned location against when deciding whether to log a miss. -/
def GL_INVALID_OPERATION : ℤ := 1282

/-- `EXIT_FAILURE` from `<cstdlib>`. -/
def EXIT_FAILURE : ℕ := 1

/-- The process-level outcome of running a piece of the embedded C++ code:
it either returns a value normally, terminates the process via
`exit(code)`, or propagates a thrown `std::runtime_error`.  Every
constructor carries the diagnostic lines written to `std::cout`/`std::cerr`
along the way. -/
inductive ProcResult (α : Type) where
  | ok (value : α) (log : List String)
  | exited (code : ℕ) (log : List String)
  | thrown (message : String) (log : List String)
deriving Repr, DecidableEq

/-- Whether a `ProcResult` is a normal return. -/
def ProcResult.isOk {α : Type} : ProcResult α → Bool
  | .ok _ _ => true
  | _ => false

/-- `const std::string shader_header`: the fixed header prepended to every
shader source.  Embedded here in its non-Emscripten variant
(`"#version 330\n"`); under `__EMSCRIPTEN__` the same role is played by a
constrained-precision variant, which none of the claims distinguish. -/
def shader_header : List Char := "#version 330\n".toList

/-- `smk::Shader`: wrapper around one `GLuint handle_` for a compiled
shader stage.  The default constructor (`Shader() = default`) leaves the
handle at its member-initializer value `0` ("If the Shader is invalid,
returns zero", per `GetHandle`'s documentation). -/
structure Shader where
  handle_ : ℕ
deriving Repr, DecidableEq

/-- The driver oracle for `Shader` construction: the handle
`glCreateShader(type)` yields, the `GL_COMPILE_STATUS` that
`glGetShaderiv` reports after `glCompileShader(handle)` ran on the given
source buffer, and the info log `glGetShaderInfoLog` returns for a
handle. -/
structure GLShaderDriver where
  createShader : ℕ → ℕ
  compileStatus : ℕ → List Char → ℤ
  shaderInfoLog : ℕ → String

/-- `Shader::Shader(std::vector<char> content, GLenum type)` from
`Shader.cpp`: create the GL shader object (throwing
`std::runtime_error` after logging when `glCreateShader` returns `0`),
hand the source to the driver, compile, then check `GL_COMPILE_STATUS`;
when the status is not `GL_TRUE`, print the compiler's info log and
`exit(EXIT_FAILURE)`. -/
def shaderCtor (d : GLShaderDriver) (content : List Char) (type : ℕ) : ProcResult Shader :=
  let handle := d.createShader type
  if handle = 0 then
    ProcResult.thrown "[Error] Impossible to create a new Shader"
      ["[Error] Impossible to create a new Shader"]
  else
    let compile_status := d.compileStatus handle content
    if compile_status ≠ GL_TRUE then
      ProcResult.exited EXIT_FAILURE
        ["[Error] compilation error: ", d.shaderInfoLog handle]
    else
      ProcResult.ok { handle_ := handle } []

/-- `Shader::FromString(const std::string&, GLenum)` from `Shader.cpp`:
builds the char buffer `shader_header ++ content ++ ['\0']` and
constructs a `Shader` from it. -/
def Shader.FromString (d : GLShaderDriver) (content : List Char) (type : ℕ) :
    ProcResult Shader :=
  shaderCtor d (shader_header ++ content ++ [Char.ofNat 0]) type

/-- The filesystem oracle for `Shader::FromFile`: `some contents` for a
readable file, `none` for a path that cannot be opened. -/
def FileSystem : Type := String → Option (List Char)

/-- `std::string(std::istreambuf_iterator<char>(file), std::istreambuf_iterator<char>())`
applied to `std::ifstream file(filename)`: an `ifstream` that failed to
open is immediately in the fail state, so its streambuf iterator equals
the end iterator and the constructed string is empty; no error is
reported. -/
def readWholeFile (fs : FileSystem) (filename : String) : List Char :=
  (fs filename).getD []

/-- `Shader::FromFile(const std::string&, GLenum)` from `Shader.cpp`:
reads the whole file (empty when unreadable) and delegates to
`FromString`. -/
def Shader.FromFile (d : GLShaderDriver) (fs : FileSystem) (filename : String) (type : ℕ) :
    ProcResult Shader :=
  Shader.FromString d (readWholeFile fs filename) type

/-- `Shader::~Shader()`: when the handle is nonzero, call
`glDeleteShader(handle_)`.  The result is the list of GPU release calls
the destructor performs (each element the handle passed to
`glDeleteShader`). -/
def Shader.destroy (s : Shader) : List ℕ :=
  if s.handle_ = 0 then [] else [s.handle_]

/-- `Shader::operator=(Shader&&)`: `std::swap(handle_, other.handle_)`.
Returns `(this, other)` after the move. -/
def Shader.moveAssign (this other : Shader) : Shader × Shader :=
  ({ handle_ := other.handle_ }, { handle_ := this.handle_ })

/-- `Shader::Shader(Shader&&)`: default-constructs (`handle_ = 0`) then
delegates to the move assignment.  Returns `(this, other)` after the
move. -/
def Shader.moveConstruct (other : Shader) : Shader × Shader :=
  Shader.moveAssign { handle_ := 0 } other

/-- `smk::ShaderProgram`: a `GLuint handle_` plus the
`std::map<std::string, GLint> uniforms_` location cache, modelled as an
association list (most recent insertion first). -/
structure ShaderProgram where
  handle_ : ℕ
  uniforms_ : List (String × ℤ)
deriving Repr, DecidableEq

/-- The driver oracle for `ShaderProgram` operations:
`glGetUniformLocation`, `glGetAttribLocation`, the `GL_LINK_STATUS`
reported after `glLinkProgram`, and `glGetProgramInfoLog`. -/
structure GLProgramDriver where
  getUniformLocation : ℕ → String → ℤ
  getAttribLocation : ℕ → String → ℤ
  linkStatus : ℕ → ℤ
  programInfoLog : ℕ → String

/-- The result of `ShaderProgram::Uniform` / `ShaderProgram::Attribute`:
the returned `GLint`, the program state afterwards, the number of
driver location queries performed during the call, and the diagnostic
lines written. -/
structure LookupResult where
  value : ℤ
  program : ShaderProgram
  driverQueries : ℕ
  log : List String
deriving Repr, DecidableEq

/-- `ShaderProgram::Uniform(const std::string&)` from `Shader.cpp`: look
the name up in `uniforms_`; on a miss query
`glGetUniformLocation`, log when the result is `GL_INVALID_OPERATION` or
negative, store the result (the not-found sentinel included) and return
it; on a hit return the cached value with no driver query.  (The C++
log text reads "doesn't exist in program".) -/
def ShaderProgram.Uniform (p : ShaderProgram) (d : GLProgramDriver) (name : String) :
    LookupResult :=
  match p.uniforms_.lookup name with
  | none =>
      let r := d.getUniformLocation p.handle_ name
      { value := r,
        program := { p with uniforms_ := (name, r) :: p.uniforms_ },
        driverQueries := 1,
        log := if r = GL_INVALID_OPERATION ∨ r < 0 then
            ["[Error] Uniform " ++ name ++ " does not exist in program"]
          else [] }
  | some v =>
      { value := v, program := p, driverQueries := 0, log := [] }

/-- `ShaderProgram::Attribute(const std::string&)` from `Shader.cpp`:
always queries `glGetAttribLocation`, logs when the result is
`GL_INVALID_OPERATION` or negative, and returns it; no caching, no state
change. -/
def ShaderProgram.Attribute (p : ShaderProgram) (d : GLProgramDriver) (name : String) :
    LookupResult :=
  let attrib := d.getAttribLocation p.handle_ name
  { value := attrib,
    program := p,
    driverQueries := 1,
    log := if attrib = GL_INVALID_OPERATION ∨ attrib < 0 then
        ["[Error] Attribute " ++ name ++ " does not exist in program"]
      else [] }

/-- `ShaderProgram::Link()` from `Shader.cpp`: `glLinkProgram`, then check
`GL_LINK_STATUS`; when it is not `GL_TRUE`, print "[Error] linkage
error" and the program info log — and fall off the end of the function
normally.  No `exit`, no `throw`, no state change on the object. -/
def ShaderProgram.Link (p : ShaderProgram) (d : GLProgramDriver) : ProcResult ShaderProgram :=
  let result := d.linkStatus p.handle_
  if result ≠ GL_TRUE then
    ProcResult.ok p ["[Error] linkage error", d.programInfoLog p.handle_]
  else
    ProcResult.ok p []

/-- `ShaderProgram::~ShaderProgram()`: when the handle is nonzero, call
`glDeleteProgram(handle_)`.  The result is the list of GPU release calls
performed. -/
def ShaderProgram.destroy (p : ShaderProgram) : List ℕ :=
  if p.handle_ = 0 then [] else [p.handle_]

/-- `ShaderProgram::operator=(ShaderProgram&&)`:
`std::swap(handle_, other.handle_); std::swap(uniforms_, other.uniforms_)`.
Returns `(this, other)` after the move. -/
def ShaderProgram.moveAssign (this other : ShaderProgram) : ShaderProgram × ShaderProgram :=
  ({ handle_ := other.handle_, uniforms_ := other.uniforms_ },
   { handle_ := this.handle_, uniforms_ := this.uniforms_ })

/-- `ShaderProgram::ShaderProgram(ShaderProgram&&)`: default-constructs
(`handle_ = 0`, empty cache) then delegates to the move assignment. -/
def ShaderProgram.moveConstruct (other : ShaderProgram) : ShaderProgram × ShaderProgram :=
  ShaderProgram.moveAssign { handle_ := 0, uniforms_ := [] } other

/-- Running a sequence of `Uniform` calls on a program: returns the final
program state and the total number of driver location queries performed
over the whole sequence. -/
def ShaderProgram.UniformCalls (p : ShaderProgram) (d : GLProgramDriver) :
    List String → ShaderProgram × ℕ
  | [] => (p, 0)
  | name :: rest =>
      let one := p.Uniform d name
      let more := ShaderProgram.UniformCalls one.program d rest
      (more.1, one.driverQueries + more.2)

/-- Running a sequence of `Attribute` calls on a program: the total number
of driver location queries performed. -/
def ShaderProgram.AttributeCalls (p : ShaderProgram) (d : GLProgramDriver) :
    List String → ℕ
  | [] => 0
  | name :: rest => (p.Attribute d name).driverQueries +
      ShaderProgram.AttributeCalls (p.Attribute d name).program d rest

/-! ## Sprite geometry claims -/

/-- Claim C1: for every sprite (texture dimensions `texWidth × texHeight`)
and every rectangle, `Sprite::SetTextureRectangle` replaces the geometry
with exactly 6 vertices, positions in order
`(0,0),(0,h),(w,h),(0,0),(w,h),(w,0)` with `w = right - left`,
`h = bottom - top`, and texture coordinates
`l = (left+0.5)/texWidth`, `r = (right-0.5)/texWidth`,
`t = (top+0.5)/texHeight`, `b = (bottom-0.5)/texHeight` assigned in order
`(l,t),(l,b),(r,b),(l,t),(r,b),(r,t)` — the two triangles `(TL,BL,BR)`
and `(TL,BR,TR)`. -/
theorem setTextureRectangle_builds_quad (s : Sprite) (rect : Rectangle) :
    (s.SetTextureRectangle rect).vertices.length = 6 ∧
    (s.SetTextureRectangle rect).vertices =
      (let w : ℚ := rect.right - rect.left
       let h : ℚ := rect.bottom - rect.top
       let l : ℚ := (rect.left + 1/2) / (s.texture.width : ℚ)
       let r : ℚ := (rect.right - 1/2) / (s.texture.width : ℚ)
       let t : ℚ := (rect.top + 1/2) / (s.texture.height : ℚ)
       let b : ℚ := (rect.bottom - 1/2) / (s.texture.height : ℚ)
       [⟨(0, 0), (l, t)⟩, ⟨(0, h), (l, b)⟩, ⟨(w, h), (r, b)⟩,
        ⟨(0, 0), (l, t)⟩, ⟨(w, h), (r, b)⟩, ⟨(w, 0), (r, t)⟩]) := by
  constructor
  · rfl
  · simp only [Sprite.SetTextureRectangle, Rectangle.width, Rectangle.height]

/-- Claim C2: the sprite built from a framebuffer of color-texture size
`(W,H)` covers the full UV range `[0,1] × [0,1]` with no half-texel
inset, vertically flipped relative to the plain-texture constructor:
the vertices at position `(0,0)` carry `v = 1` and the vertex at `(0,H)`
carries `v = 0`; positions span `(0,0)`–`(W,H)` in the same two-triangle
order as `SetTextureRectangle` produces. -/
theorem fromFramebuffer_full_uv_flipped (fb : Framebuffer) :
    (Sprite.fromFramebuffer fb).texture = fb.color_texture ∧
    (Sprite.fromFramebuffer fb).vertices =
      (let W : ℚ := (fb.color_texture.width : ℚ)
       let H : ℚ := (fb.color_texture.height : ℚ)
       [⟨(0, 0), (0, 1)⟩, ⟨(0, H), (0, 0)⟩, ⟨(W, H), (1, 0)⟩,
        ⟨(0, 0), (0, 1)⟩, ⟨(W, H), (1, 0)⟩, ⟨(W, 0), (1, 1)⟩]) ∧
    (Sprite.fromFramebuffer fb).vertices.map Vertex.position =
      (Sprite.fromTextureRect fb.color_texture
        { left := 0, top := 0, right := (fb.color_texture.width : ℚ),
          bottom := (fb.color_texture.height : ℚ) }).vertices.map Vertex.position := by
  refine ⟨rfl, rfl, ?_⟩
  simp [Sprite.fromFramebuffer, Sprite.fromTextureRect, Sprite.SetTextureRectangle,
    Rectangle.width, Rectangle.height]

/-- Claim C7: the full-texture constructor `Sprite(texture)` uses the
rectangle `{left 0, top 0, right W, bottom H}`, so the UV corners are
`(0.5/W, 0.5/H)` at the top-left through `((W-0.5)/W, (H-0.5)/H)` at the
bottom-right, and positions span `(0,0)`–`(W,H)`. -/
theorem fromTexture_full_rectangle (texture : Texture) :
    Sprite.fromTexture texture =
      (let W : ℚ := (texture.width : ℚ)
       let H : ℚ := (texture.height : ℚ)
       { texture := texture, vertices := [
          ⟨(0, 0), (1/2 / W, 1/2 / H)⟩,
          ⟨(0, H), (1/2 / W, (H - 1/2) / H)⟩,
          ⟨(W, H), ((W - 1/2) / W, (H - 1/2) / H)⟩,
          ⟨(0, 0), (1/2 / W, 1/2 / H)⟩,
          ⟨(W, H), ((W - 1/2) / W, (H - 1/2) / H)⟩,
          ⟨(W, 0), ((W - 1/2) / W, 1/2 / H)⟩] }) := by
  simp [Sprite.fromTexture, Sprite.SetTextureRectangle, Rectangle.width, Rectangle.height]

/-- Claim C8: `SetTextureRectangle` is total — for every rectangle,
zero-area and out-of-bounds ones included, it produces a 6-vertex
geometry without any error channel, leaves the referenced texture
unmodified, and a zero-area rectangle yields degenerate (zero-drawing-
area) triangles. -/
theorem setTextureRectangle_total_degenerate (s : Sprite) (rect : Rectangle) :
    (s.SetTextureRectangle rect).vertices.length = 6 ∧
    (s.SetTextureRectangle rect).texture = s.texture ∧
    ((rect.width = 0 ∨ rect.height = 0) →
      (let vs := (s.SetTextureRectangle rect).vertices
       let dflt : Vertex := ⟨(0, 0), (0, 0)⟩
       triangleDoubledArea (vs.getD 0 dflt).position (vs.getD 1 dflt).position
         (vs.getD 2 dflt).position = 0 ∧
       triangleDoubledArea (vs.getD 3 dflt).position (vs.getD 4 dflt).position
         (vs.getD 5 dflt).position = 0)) := by
  refine ⟨rfl, rfl, ?_⟩
  intro h
  simp only [Sprite.SetTextureRectangle, triangleDoubledArea, List.getD]
  rcases h with h | h <;> simp_all [Rectangle.width, Rectangle.height]

/-- Concrete instantiation of `setTextureRectangle_total_degenerate` at a
zero-width rectangle on a 4×3 texture. -/
theorem setTextureRectangle_total_degenerate_witness :
    (Rectangle.width { left := 1, top := 2, right := 1, bottom := 5 } = 0 ∨
     Rectangle.height { left := 1, top := 2, right := 1, bottom := 5 } = 0) ∧
    (let s : Sprite := { texture := { width := 4, height := 3 }, vertices := [] }
     let rect : Rectangle := { left := 1, top := 2, right := 1, bottom := 5 }
     let vs := (s.SetTextureRectangle rect).vertices
     let dflt : Vertex := ⟨(0, 0), (0, 0)⟩
     vs.length = 6 ∧ (s.SetTextureRectangle rect).texture = s.texture ∧
     triangleDoubledArea (vs.getD 0 dflt).position (vs.getD 1 dflt).position
       (vs.getD 2 dflt).position = 0 ∧
     triangleDoubledArea (vs.getD 3 dflt).position (vs.getD 4 dflt).position
       (vs.getD 5 dflt).position = 0) := by
  have hdeg : Rectangle.width { left := 1, top := 2, right := 1, bottom := 5 } = 0 ∨
      Rectangle.height { left := 1, top := 2, right := 1, bottom := 5 } = 0 := by
    left; norm_num [Rectangle.width]
  have h := setTextureRectangle_total_degenerate
    { texture := { width := 4, height := 3 }, vertices := [] }
    { left := 1, top := 2, right := 1, bottom := 5 }
  exact ⟨hdeg, h.1, h.2.1, (h.2.2 hdeg).1, (h.2.2 hdeg).2⟩

/-! ## Shader lifecycle claims -/

/-- A driver stub whose `glCreateShader` succeeds (handle 5) and whose
compilation always reports status `0` (not `GL_TRUE`). -/
def stubDriverCompileFails : GLShaderDriver :=
  { createShader := fun _ => 5, compileStatus := fun _ _ => 0,
    shaderInfoLog := fun _ => "0:1: error" }

/-- A driver stub whose `glCreateShader` always returns `0`. -/
def stubDriverCreateFails : GLShaderDriver :=
  { createShader := fun _ => 0, compileStatus := fun _ _ => 1,
    shaderInfoLog := fun _ => "" }

/-- A driver stub for which everything succeeds (handle 7, status
`GL_TRUE`). -/
def stubDriverOk : GLShaderDriver :=
  { createShader := fun _ => 7, compileStatus := fun _ _ => 1,
    shaderInfoLog := fun _ => "" }

/-- A filesystem stub on which no path can be opened. -/
def stubEmptyFs : FileSystem := fun _ => none

/-- Claim C5: when shader creation succeeds but compilation fails
(`GL_COMPILE_STATUS` not `GL_TRUE`), construction through `FromString` —
and through `FromFile`, which feeds the file contents to `FromString` —
terminates the process with `EXIT_FAILURE` after emitting the compiler's
diagnostic log; it neither returns a `Shader` nor throws. -/
theorem compile_failure_exits (d : GLShaderDriver) (content : List Char)
    (fs : FileSystem) (filename : String) (type : ℕ)
    (hc : d.createShader type ≠ 0)
    (hs : d.compileStatus (d.createShader type)
      (shader_header ++ content ++ [Char.ofNat 0]) ≠ GL_TRUE) :
    Shader.FromString d content type =
      ProcResult.exited EXIT_FAILURE
        ["[Error] compilation error: ", d.shaderInfoLog (d.createShader type)] ∧
    (readWholeFile fs filename = content →
      Shader.FromFile d fs filename type =
        ProcResult.exited EXIT_FAILURE
          ["[Error] compilation error: ", d.shaderInfoLog (d.createShader type)]) := by
  have h1 : Shader.FromString d content type =
      ProcResult.exited EXIT_FAILURE
        ["[Error] compilation error: ", d.shaderInfoLog (d.createShader type)] := by
    rw [List.append_assoc] at hs
    simp [Shader.FromString, shaderCtor, hc, hs]
  exact ⟨h1, fun hf => by rw [Shader.FromFile, hf]; exact h1⟩

/-- Concrete instantiation of `compile_failure_exits`: an empty source on
a driver stub that fails compilation, with a nonexistent file path. -/
theorem compile_failure_exits_witness :
    (stubDriverCompileFails.createShader 35633 ≠ 0) ∧
    (stubDriverCompileFails.compileStatus (stubDriverCompileFails.createShader 35633)
      (shader_header ++ [] ++ [Char.ofNat 0]) ≠ GL_TRUE) ∧
    (readWholeFile stubEmptyFs "missing.vert" = []) ∧
    Shader.FromString stubDriverCompileFails [] 35633 =
      ProcResult.exited EXIT_FAILURE ["[Error] compilation error: ", "0:1: error"] ∧
    Shader.FromFile stubDriverCompileFails stubEmptyFs "missing.vert" 35633 =
      ProcResult.exited EXIT_FAILURE ["[Error] compilation error: ", "0:1: error"] := by
  have h := compile_failure_exits stubDriverCompileFails []
    stubEmptyFs "missing.vert" 35633 (by decide) (by decide)
  exact ⟨by decide, by decide, rfl, h.1, h.2 rfl⟩

/-- Claim C6: when linking fails (`GL_LINK_STATUS` not `GL_TRUE`),
`ShaderProgram::Link` logs the linker diagnostic and returns normally —
no process termination, no exception, the object left unchanged (inert
but non-crashing). -/
theorem link_failure_returns_normally (d : GLProgramDriver) (p : ShaderProgram) :
    (p.Link d).isOk = true ∧
    (d.linkStatus p.handle_ ≠ GL_TRUE →
      p.Link d = ProcResult.ok p ["[Error] linkage error", d.programInfoLog p.handle_]) := by
  constructor
  · by_cases h : d.linkStatus p.handle_ ≠ GL_TRUE <;>
      simp [ShaderProgram.Link, ProcResult.isOk, h]
  · intro h
    simp [ShaderProgram.Link, h]

/-- A driver stub whose `glGetUniformLocation` knows only the name `"u"`
(location 3, everything else the `-1` sentinel), whose attribute lookup
always answers 2, and whose linking always fails with status `0`. -/
def stubProgramDriver : GLProgramDriver :=
  { getUniformLocation := fun _ name => if name = "u" then 3 else -1,
    getAttribLocation := fun _ _ => 2,
    linkStatus := fun _ => 0,
    programInfoLog := fun _ => "link diagnostic" }

/-- Concrete instantiation of `link_failure_returns_normally` on a driver
stub whose link always fails. -/
theorem link_failure_returns_normally_witness :
    (stubProgramDriver.linkStatus 1 ≠ GL_TRUE) ∧
    (ShaderProgram.Link { handle_ := 1, uniforms_ := [] } stubProgramDriver).isOk = true ∧
    ShaderProgram.Link { handle_ := 1, uniforms_ := [] } stubProgramDriver =
      ProcResult.ok { handle_ := 1, uniforms_ := [] }
        ["[Error] linkage error", "link diagnostic"] := by
  have h := link_failure_returns_normally stubProgramDriver { handle_ := 1, uniforms_ := [] }
  exact ⟨by decide, h.1, h.2 (by decide)⟩

/-- Claim C9: when `glCreateShader` returns `0`, the `Shader` constructor
(and hence `FromString`) throws a `std::runtime_error` after logging —
a different failure channel than the compile-error path, with no process
termination. -/
theorem create_failure_throws (d : GLShaderDriver) (content : List Char) (type : ℕ)
    (h : d.createShader type = 0) :
    shaderCtor d content type =
      ProcResult.thrown "[Error] Impossible to create a new Shader"
        ["[Error] Impossible to create a new Shader"] ∧
    Shader.FromString d content type =
      ProcResult.thrown "[Error] Impossible to create a new Shader"
        ["[Error] Impossible to create a new Shader"] := by
  constructor
  · simp [shaderCtor, h]
  · simp [Shader.FromString, shaderCtor, h]

/-- Concrete instantiation of `create_failure_throws` on a driver stub
whose `glCreateShader` returns `0`. -/
theorem create_failure_throws_witness :
    (stubDriverCreateFails.createShader 35633 = 0) ∧
    Shader.FromString stubDriverCreateFails [] 35633 =
      ProcResult.thrown "[Error] Impossible to create a new Shader"
        ["[Error] Impossible to create a new Shader"] := by
  have h := create_failure_throws stubDriverCreateFails [] 35633 (by decide)
  exact ⟨by decide, h.2⟩

/-- Claim C10: `FromFile` reports no file error: for every path it equals
`FromString` on the file's contents, and for an unreadable path it reads
the empty string — so only the fixed header (plus the terminating NUL)
gets compiled. -/
theorem fromFile_reads_empty_on_missing (d : GLShaderDriver) (fs : FileSystem)
    (filename : String) (type : ℕ) :
    Shader.FromFile d fs filename type =
      Shader.FromString d (readWholeFile fs filename) type ∧
    (fs filename = none →
      readWholeFile fs filename = [] ∧
      Shader.FromFile d fs filename type = Shader.FromString d [] type ∧
      Shader.FromFile d fs filename type =
        shaderCtor d (shader_header ++ [Char.ofNat 0]) type) ∧
    (∀ contents, fs filename = some contents →
      Shader.FromFile d fs filename type = Shader.FromString d contents type) := by
  refine ⟨rfl, fun h => ?_, fun contents h => ?_⟩
  · have hr : readWholeFile fs filename = [] := by simp [readWholeFile, h]
    refine ⟨hr, by rw [Shader.FromFile, hr], ?_⟩
    rw [Shader.FromFile, hr, Shader.FromString, List.append_nil]
  · rw [Shader.FromFile, readWholeFile, h, Option.getD_some]

/-- Concrete instantiation of `fromFile_reads_empty_on_missing` on a
filesystem stub with no readable paths. -/
theorem fromFile_reads_empty_on_missing_witness :
    (stubEmptyFs "shader.frag" = none) ∧
    Shader.FromFile stubDriverOk stubEmptyFs "shader.frag" 35632 =
      Shader.FromString stubDriverOk [] 35632 ∧
    Shader.FromFile stubDriverOk stubEmptyFs "shader.frag" 35632 =
      shaderCtor stubDriverOk (shader_header ++ [Char.ofNat 0]) 35632 := by
  have h := fromFile_reads_empty_on_missing stubDriverOk stubEmptyFs "shader.frag" 35632
  exact ⟨rfl, (h.2.1 rfl).2.1, (h.2.1 rfl).2.2⟩

/-! ## Move semantics (claim C4) -/

/-- The claim "any move operation leaves the moved-from source's handle
zeroed, so destroying the moved-from source performs no GPU release
call" is false for move *assignment* onto a non-empty target: moving a
`Shader` with handle 1 into a `Shader` holding handle 2 leaves the
moved-from source holding handle 2, and destroying it releases that
handle. -/
theorem move_assign_source_not_zeroed_cex :
    ¬ ((Shader.moveAssign { handle_ := 2 } { handle_ := 1 }).2.handle_ = 0 ∧
       (Shader.moveAssign { handle_ := 2 } { handle_ := 1 }).2.destroy = []) := by
  decide

/-- Claim C4 (amended): move construction of a `Shader` or
`ShaderProgram` transfers the handle and leaves the source zeroed, so
destroying the source performs no release; move assignment swaps the
two handles (the source receives the destination's previous handle,
zero only when the destination was empty); in both cases the multiset
of release calls performed when the involved objects are destroyed is
preserved, so exactly one release occurs per originally-constructed
handle regardless of how many moves occurred. -/
theorem move_swaps_handles_single_release (a b : Shader) (q p : ShaderProgram) :
    (Shader.moveConstruct a).1.handle_ = a.handle_ ∧
    (Shader.moveConstruct a).2.handle_ = 0 ∧
    (Shader.moveConstruct a).2.destroy = [] ∧
    (Shader.moveConstruct a).1.destroy ++ (Shader.moveConstruct a).2.destroy = a.destroy ∧
    Shader.moveAssign b a = ({ handle_ := a.handle_ }, { handle_ := b.handle_ }) ∧
    ((Shader.moveAssign b a).1.destroy ++ (Shader.moveAssign b a).2.destroy).Perm
      (b.destroy ++ a.destroy) ∧
    (ShaderProgram.moveConstruct p).1.handle_ = p.handle_ ∧
    (ShaderProgram.moveConstruct p).2.handle_ = 0 ∧
    (ShaderProgram.moveConstruct p).2.destroy = [] ∧
    (ShaderProgram.moveConstruct p).1.destroy ++ (ShaderProgram.moveConstruct p).2.destroy =
      p.destroy ∧
    ShaderProgram.moveAssign q p =
      ({ handle_ := p.handle_, uniforms_ := p.uniforms_ },
       { handle_ := q.handle_, uniforms_ := q.uniforms_ }) ∧
    ((ShaderProgram.moveAssign q p).1.destroy ++ (ShaderProgram.moveAssign q p).2.destroy).Perm
      (q.destroy ++ p.destroy) := by
  refine ⟨rfl, rfl, rfl, ?_, rfl, ?_, rfl, rfl, rfl, ?_, rfl, ?_⟩
  · simp [Shader.moveConstruct, Shader.moveAssign, Shader.destroy]
  · exact List.perm_append_comm
  · simp [ShaderProgram.moveConstruct, ShaderProgram.moveAssign, ShaderProgram.destroy]
  · exact List.perm_append_comm

/-! ## Uniform cache claims -/

/-- A `Uniform` call on a name missing from the cache performs one driver
query and stores the driver's answer. -/
theorem Uniform_of_lookup_none (p : ShaderProgram) (d : GLProgramDriver) (name : String)
    (h : p.uniforms_.lookup name = none) :
    (p.Uniform d name).value = d.getUniformLocation p.handle_ name ∧
    (p.Uniform d name).driverQueries = 1 ∧
    (p.Uniform d name).program =
      { p with uniforms_ := (name, d.getUniformLocation p.handle_ name) :: p.uniforms_ } := by
  simp [ShaderProgram.Uniform, h]

/-- A `Uniform` call on a cached name performs no driver query, returns
the cached value and leaves the program unchanged. -/
theorem Uniform_of_lookup_some (p : ShaderProgram) (d : GLProgramDriver) (name : String)
    (v : ℤ) (h : p.uniforms_.lookup name = some v) :
    (p.Uniform d name).value = v ∧
    (p.Uniform d name).driverQueries = 0 ∧
    (p.Uniform d name).program = p := by
  simp [ShaderProgram.Uniform, h]

/-- Counting invariant for `UniformCalls`: when the cache's key set is
exactly `S`, the total number of driver queries over a call sequence is
the number of distinct names in the sequence that lie outside `S`. -/
theorem UniformCalls_queries_eq (d : GLProgramDriver) (names : List String) :
    ∀ (p : ShaderProgram) (S : Finset String),
      (∀ n, p.uniforms_.lookup n = none ↔ n ∉ S) →
      (ShaderProgram.UniformCalls p d names).2 = ((names.toFinset : Finset String) \ S).card := by
  induction names with
  | nil =>
      intro p S hS
      simp [ShaderProgram.UniformCalls]
  | cons name rest ih =>
      intro p S hS
      by_cases hmem : name ∈ S
      · obtain ⟨v, hv⟩ : ∃ v, p.uniforms_.lookup name = some v := by
          cases hcase : p.uniforms_.lookup name with
          | none => exact absurd hmem ((hS name).mp hcase)
          | some v => exact ⟨v, rfl⟩
        have hone := Uniform_of_lookup_some p d name v hv
        simp only [ShaderProgram.UniformCalls, hone.2.1, hone.2.2, ih p S hS,
          List.toFinset_cons, Finset.insert_sdiff_of_mem _ hmem, Nat.zero_add]
      · have hnone : p.uniforms_.lookup name = none := (hS name).mpr hmem
        have hS' : ∀ n,
            ((name, d.getUniformLocation p.handle_ name) :: p.uniforms_).lookup n = none ↔
              n ∉ insert name S := by
          intro n
          by_cases hn : n = name
          · subst hn
            simp [List.lookup_cons]
          · simp [List.lookup_cons, beq_false_of_ne hn, hS n, hn]
        have hone := Uniform_of_lookup_none p d name hnone
        have hrec := ih (p.Uniform d name).program (insert name S) (hone.2.2 ▸ hS')
        simp only [ShaderProgram.UniformCalls, hone.2.1, hrec, List.toFinset_cons,
          Finset.insert_sdiff_of_not_mem _ hmem, Finset.sdiff_insert]
        by_cases hr : name ∈ (rest.toFinset : Finset String) \ S
        · rw [Finset.card_insert_of_mem hr, Finset.card_erase_of_mem hr]
          have hpos : 0 < ((rest.toFinset : Finset String) \ S).card :=
            Finset.card_pos.mpr ⟨name, hr⟩
          omega
        · rw [Finset.card_insert_of_not_mem hr, Finset.erase_eq_of_not_mem hr]
          omega

/-- Claim C3: `Uniform` queries the driver exactly once per distinct name
over the program's lifetime — on a fresh cache a call sequence performs
as many driver queries as it has distinct names; a first lookup of an
uncached name queries once and stores the result (the not-found sentinel
included), and an immediately following call with the same name performs
no driver query, returns the identical value and leaves the state
unchanged.  `Attribute` is never cached: every call performs one driver
query, and a call sequence performs as many queries as it has calls. -/
theorem uniform_cached_attribute_not (d : GLProgramDriver) (p : ShaderProgram)
    (name : String) :
    (((p.Uniform d name).program.Uniform d name).driverQueries = 0 ∧
     ((p.Uniform d name).program.Uniform d name).value = (p.Uniform d name).value ∧
     ((p.Uniform d name).program.Uniform d name).program = (p.Uniform d name).program) ∧
    (p.uniforms_.lookup name = none →
      (p.Uniform d name).driverQueries = 1 ∧
      (p.Uniform d name).value = d.getUniformLocation p.handle_ name ∧
      (p.Uniform d name).program.uniforms_.lookup name =
        some (d.getUniformLocation p.handle_ name)) ∧
    (p.uniforms_ = [] → ∀ names : List String,
      (ShaderProgram.UniformCalls p d names).2 = (names.toFinset : Finset String).card) ∧
    ((p.Attribute d name).driverQueries = 1 ∧ (p.Attribute d name).program = p) ∧
    (∀ names : List String, ShaderProgram.AttributeCalls p d names = names.length) := by
  refine ⟨?_, ?_, ?_, ?_, ?_⟩
  · cases hcase : p.uniforms_.lookup name with
    | none =>
        have hone := Uniform_of_lookup_none p d name hcase
        have hlk : (p.Uniform d name).program.uniforms_.lookup name =
            some (d.getUniformLocation p.handle_ name) := by
          rw [hone.2.2]
          simp [List.lookup_cons]
        have htwo := Uniform_of_lookup_some (p.Uniform d name).program d name _ hlk
        exact ⟨htwo.2.1, by rw [htwo.1, hone.1], htwo.2.2⟩
    | some v =>
        have hone := Uniform_of_lookup_some p d name v hcase
        have htwo := Uniform_of_lookup_some (p.Uniform d name).program d name v
          (by rw [hone.2.2]; exact hcase)
        exact ⟨htwo.2.1, by rw [htwo.1, hone.1], htwo.2.2⟩
  · intro h
    have hone := Uniform_of_lookup_none p d name h
    refine ⟨hone.2.1, hone.1, ?_⟩
    rw [hone.2.2]
    simp [List.lookup_cons]
  · intro hfresh names
    have := UniformCalls_queries_eq d names p ∅ (by simp [hfresh])
    simpa using this
  · exact ⟨rfl, rfl⟩
  · intro names
    induction names with
    | nil => rfl
    | cons n rest ih =>
        simp only [ShaderProgram.AttributeCalls, ShaderProgram.Attribute, List.length_cons]
        rw [ih]
        omega

/-- Concrete instantiation of `uniform_cached_attribute_not`: a fresh
program on `stubProgramDriver`, looked up at the unknown name `"v"` —
the first call queries once and stores the `-1` sentinel, the second
call is a pure cache hit, and the distinct-name query count over the
sequence `["v", "u", "v", "u", "v"]` is 2 while `Attribute` queries 5
times on a sequence of 5 calls. -/
theorem uniform_cached_attribute_not_witness :
    ((ShaderProgram.uniforms_ { handle_ := 1, uniforms_ := [] }).lookup "v" = none) ∧
    (let p0 : ShaderProgram := { handle_ := 1, uniforms_ := [] }
     let one := p0.Uniform stubProgramDriver "v"
     let two := one.program.Uniform stubProgramDriver "v"
     one.driverQueries = 1 ∧ one.value = -1 ∧
     two.driverQueries = 0 ∧ two.value = one.value ∧ two.program = one.program) ∧
    (ShaderProgram.UniformCalls { handle_ := 1, uniforms_ := [] } stubProgramDriver
      ["v", "u", "v", "u", "v"]).2 = 2 ∧
    ShaderProgram.AttributeCalls { handle_ := 1, uniforms_ := [] } stubProgramDriver
      ["v", "u", "v", "u", "v"] = 5 := by
  have h := uniform_cached_attribute_not stubProgramDriver
    { handle_ := 1, uniforms_ := [] } "v"
  have hmiss := h.2.1 rfl
  refine ⟨rfl, ⟨hmiss.1, ?_, h.1.1, h.1.2.1, h.1.2.2⟩, ?_, ?_⟩
  · rw [hmiss.2.1]; decide
  · rw [h.2.2.1 rfl ["v", "u", "v", "u", "v"]]; decide
  · rw [h.2.2.2.2 ["v", "u", "v", "u", "v"]]; rfl

end Smk
